import Mathlib

/-!
Shallow embedding of the voice-agent calendar bridge (repository 1num),
following src/index.js, the complete production variant: it is the only
variant exposing all four operation endpoints (check-availability,
create-event, update-event, cancel-event) together with the
requireCalendar middleware. Request date strings "YYYY-MM-DD" are
modelled as a day count, time strings "HH:MM" as minutes of the day;
instants (JS Date values, ISO strings) are epoch milliseconds as Int.
The external calendar provider is an oracle of functions returning
Except values (ok result, or a thrown error). Each handler returns its
outcome together with the list of provider calls it issued, in order.
-/

namespace OneNum

/-- A wall-clock date plus time of day, the content of the template
string date ++ "T" ++ time ++ ":00" built by the handlers:
`days` counts calendar days since 1970-01-01, `minutes` is the time of
day in minutes (HH:MM becomes 60*HH+MM). -/
structure WallTime where
  days : Nat
  minutes : Nat
deriving DecidableEq, Repr

/-- Milliseconds represented by a wall-clock date+time, before any
timezone shift. -/
def wallMs (w : WallTime) : Int :=
  (w.days : Int) * 86400000 + (w.minutes : Int) * 60000

/-- JS `new Date` applied to a date-time string that carries no UTC
offset (the form the handlers build): ECMAScript interprets it in the
local timezone of the running process. `off` is that zone's offset in
minutes east of UTC (America/Chicago in summer is -300), so the
resulting epoch instant is the wall-clock value minus the offset. -/
def jsDateParseMs (off : Int) (w : WallTime) : Int :=
  wallMs w - off * 60000

/-- Process environment: the local timezone offset of the server
process (minutes east of UTC), and the optional TIMEZONE and
GOOGLE_CALENDAR_ID environment variables. -/
structure Env where
  localOffsetMin : Int
  timezoneEnv : Option String
  calendarIdEnv : Option String
deriving Repr

/-- `process.env.TIMEZONE || "America/Chicago"` (src/index.js line 127,
also lines 220 and 224). -/
def Env.timeZone (e : Env) : String :=
  e.timezoneEnv.getD "America/Chicago"

/-- `process.env.GOOGLE_CALENDAR_ID || "colinyuan3333@gmail.com"`
(src/index.js line 17). -/
def Env.calendarId (e : Env) : String :=
  e.calendarIdEnv.getD "colinyuan3333@gmail.com"

/-- A start or end field of a provider event: `dateTime` is a timed
instant (epoch ms for the ISO string), `date` an all-day date; either
may be absent. -/
structure GCalTime where
  dateTime : Option Int
  date : Option Nat
deriving DecidableEq, Repr

/-- An event record held by the provider. -/
structure GEvent where
  id : String
  summary : Option String
  start : GCalTime
  eend : GCalTime
deriving DecidableEq, Repr

/-- An error thrown inside a handler: a TypeError from accessing a
property of undefined, or a rejection coming from a provider call
(whose detail text is carried along, to model leakage questions). -/
inductive JsError
  | typeError
  | providerError (msg : String)
deriving DecidableEq, Repr

/-- Parameters of a `calendar.events.list` call. `timeZone` is passed
only by the check-availability handler; `orderByStartTime` records
whether orderBy "startTime" was supplied. -/
structure ListParams where
  calendarId : String
  timeMin : Int
  timeMax : Int
  singleEvents : Bool
  orderByStartTime : Bool
  timeZone : Option String
deriving DecidableEq, Repr

/-- The `data` field of a list response; `items` may be absent. -/
structure ListResponseData where
  items : Option (List GEvent)
deriving DecidableEq, Repr

/-- One reminder override of the insert body. -/
structure ReminderOverride where
  method : String
  minutes : Nat
deriving DecidableEq, Repr

/-- The `reminders` field of the insert body. -/
structure Reminders where
  useDefault : Bool
  overrides : List ReminderOverride
deriving DecidableEq, Repr

/-- A start/end object written by the create handler: an instant plus a
timezone label. -/
structure EventDateTime where
  dateTime : Int
  timeZone : String
deriving DecidableEq, Repr

/-- The event body assembled by the create handler (src/index.js lines
215-238). -/
structure InsertBody where
  summary : String
  description : String
  start : EventDateTime
  eend : EventDateTime
  reminders : Reminders
  attendees : Option (List String)
deriving DecidableEq, Repr

/-- Parameters of a `calendar.events.insert` call. -/
structure InsertParams where
  calendarId : String
  resource : InsertBody
  sendUpdates : String
deriving DecidableEq, Repr

/-- The `data` of an insert response: new event id and link. -/
structure InsertResponseData where
  id : String
  htmlLink : Option String
deriving DecidableEq, Repr

/-- The external calendar provider, as a black-box oracle: each
operation either resolves or rejects. -/
structure Provider where
  listEvents : ListParams → Except JsError ListResponseData
  insertEvent : InsertParams → Except JsError InsertResponseData
  getEvent : String → String → Except JsError GEvent
  updateEvent : String → String → GEvent → Except JsError GEvent
  deleteEvent : String → String → Except JsError Unit

/-- A provider call issued by a handler, recorded in order. -/
inductive PCall
  | list (p : ListParams)
  | insert (p : InsertParams)
  | get (calendarId eventId : String)
  | update (calendarId eventId : String) (body : GEvent)
  | delete (calendarId eventId : String)
deriving DecidableEq, Repr

/-- Whether a recorded call is a read-only events.list call. -/
def PCall.isList : PCall → Bool
  | .list _ => true
  | _ => false

/-- Whether a recorded call is an events.insert call. -/
def PCall.isInsert : PCall → Bool
  | .insert _ => true
  | _ => false

/-- Whether a recorded call is an events.update call. -/
def PCall.isUpdate : PCall → Bool
  | .update _ _ _ => true
  | _ => false

/-- The `args` payload of a request envelope. Each handler destructures
the fields it needs; absent JSON fields are `none`. Dates are day
counts, times minutes of the day, durations minutes. -/
structure Args where
  date : Option Nat := none
  startTime : Option Nat := none
  endTime : Option Nat := none
  title : Option String := none
  duration : Option Nat := none
  description : Option String := none
  attendeeEmail : Option String := none
  eventId : Option String := none
  newDate : Option Nat := none
  newTime : Option Nat := none
  newDuration : Option Nat := none
deriving DecidableEq, Repr

/-- A request body; `args` may be absent, in which case the handlers
default it to the empty object (`const { args = {} } = req.body`). -/
structure ReqBody where
  args : Option Args := none
deriving DecidableEq, Repr

/-- Outcome of the check-availability handler. Each constructor stands
for one literal result template of src/index.js, carrying exactly the
request/response data that template interpolates:
`missingFields` is the fixed guidance sentence asking for date, start
time and end time (line 119); `free` the fixed "calendar is completely
free" sentence interpolating date, startTime, endTime (line 143);
`busy` the appointment-count sentence interpolating the date, the count
and, per event, its start (formatted by toLocaleString in the
configured timezone) and its summary defaulted to "Busy" (lines
146-167); `failure` the fixed catch-block apology (line 171), which
interpolates nothing. -/
inductive CheckOutcome
  | missingFields
  | free (date startTime endTime : Nat)
  | busy (date : Nat) (count : Nat) (entries : List (GCalTime × String))
  | failure
deriving DecidableEq, Repr

/-- Outcome of the create-event handler, one constructor per literal
result template: `missingFields` the fixed guidance sentence (line
191), `conflict` the fixed already-booked sentence (line 211),
`created` the confirmation carrying the response fields eventId and
eventLink plus the interpolated title, date, startTime, duration and
optional attendee (lines 251-255), `failure` the fixed catch apology
(line 258). -/
inductive CreateOutcome
  | missingFields
  | conflict
  | created (title : String) (date startTime duration : Nat)
      (eventId : String) (eventLink : Option String)
      (attendeeEmail : Option String)
  | failure
deriving DecidableEq, Repr

/-- Outcome of the update-event handler: `missingFields` the fixed
guidance sentence (line 271), `updated` the success sentence carrying
the response eventId and the presence of newDate/newTime it
interpolates (lines 303-306), `failure` the fixed catch apology (line
309). -/
inductive UpdateOutcome
  | missingFields
  | updated (eventId : String) (newDate newTime : Option Nat)
  | failure
deriving DecidableEq, Repr

/-- Outcome of the cancel-event handler: fixed guidance, fixed success
confirmation, fixed catch apology (lines 321-341). -/
inductive CancelOutcome
  | missingFields
  | cancelled
  | failure
deriving DecidableEq, Repr

/-- The check-availability handler, src/index.js lines 113-175: after
presence validation it parses the two bounds with JS `new Date`
(process-local timezone), lists the window with singleEvents and
orderBy startTime and the configured timeZone attached to the query,
and branches on the emptiness of `items || []`. -/
def checkAvailability (env : Env) (p : Provider) (args : Args) :
    CheckOutcome × List PCall :=
  match args.date, args.startTime, args.endTime with
  | some date, some startTime, some endTime =>
    let timeMin := jsDateParseMs env.localOffsetMin ⟨date, startTime⟩
    let timeMax := jsDateParseMs env.localOffsetMin ⟨date, endTime⟩
    let q : ListParams :=
      ⟨env.calendarId, timeMin, timeMax, true, true, some env.timeZone⟩
    match p.listEvents q with
    | .error _ => (.failure, [.list q])
    | .ok respData =>
      let events := respData.items.getD []
      if events.length = 0 then
        (.free date startTime endTime, [.list q])
      else
        (.busy date events.length
          (events.map fun ev => (ev.start, ev.summary.getD "Busy")),
         [.list q])
  | _, _, _ => (.missingFields, [])

/-- The create-event handler, src/index.js lines 178-262: presence
validation of title/date/startTime, duration defaulted to 60, start
parsed by JS `new Date`, end = start + duration * 60000 ms, then a
conflict listing of [start, end); when `items && items.length > 0` a
conflict message with no insert, otherwise the insert with the body of
lines 215-238 (description defaulted, both bounds tagged with the
configured timezone, fixed reminder overrides, optional attendee,
sendUpdates "all" exactly when an attendee is present). -/
def createEvent (env : Env) (p : Provider) (args : Args) :
    CreateOutcome × List PCall :=
  match args.title, args.date, args.startTime with
  | some title, some date, some startTime =>
    let duration := args.duration.getD 60
    let startMs := jsDateParseMs env.localOffsetMin ⟨date, startTime⟩
    let endMs := startMs + (duration : Int) * 60000
    let q : ListParams := ⟨env.calendarId, startMs, endMs, true, false, none⟩
    match p.listEvents q with
    | .error _ => (.failure, [.list q])
    | .ok conflicts =>
      if (match conflicts.items with
          | some l => decide (0 < l.length)
          | none => false) then
        (.conflict, [.list q])
      else
        let body : InsertBody :=
          { summary := title
            description :=
              args.description.getD "Appointment created via Retell voice agent"
            start := ⟨startMs, env.timeZone⟩
            eend := ⟨endMs, env.timeZone⟩
            reminders := ⟨false, [⟨"email", 24 * 60⟩, ⟨"popup", 30⟩]⟩
            attendees := args.attendeeEmail.map fun e => [e] }
        let ins : InsertParams :=
          ⟨env.calendarId, body,
           if args.attendeeEmail.isSome then "all" else "none"⟩
        match p.insertEvent ins with
        | .error _ => (.failure, [.list q, .insert ins])
        | .ok r =>
          (.created title date startTime duration r.id r.htmlLink
            args.attendeeEmail,
           [.list q, .insert ins])
  | _, _, _ => (.missingFields, [])

/-- The resolved value of `calendar.events.get`: a GaxiosResponse-like
object whose event payload sits under `data`. The response object
itself has no `start` or `end` property; the update handler
nevertheless reads and assigns `existingEvent.start` and
`existingEvent.end` (lines 286-294), so those accesses see undefined.
The two optional fields model those (absent) properties. -/
structure GetResponse where
  data : GEvent
  start : Option GCalTime := none
  eend : Option GCalTime := none
deriving DecidableEq, Repr

/-- JS member access on a possibly-undefined value: reading a property
of undefined throws a TypeError. -/
def jsRequire {α : Type} : Option α → Except JsError α
  | some a => .ok a
  | none => .error .typeError

/-- UTC calendar date recovered by `iso.split("T")[0]` from an ISO
string of the instant `ms` (day count). -/
def isoDatePart (ms : Int) : Nat :=
  (ms / 86400000).toNat

/-- UTC time of day in minutes recovered by
`iso.split("T")[1].substring(0,5)` from an ISO string of `ms`. -/
def isoTimePart (ms : Int) : Nat :=
  ((ms % 86400000) / 60000).toNat

/-- The merge block of the update handler, src/index.js lines 285-295,
executed when newDate or newTime is present. Statement by statement:
date = newDate || existingEvent.start.dateTime.split("T")[0];
time = newTime || existingEvent.start.dateTime.substring slice;
duration = newDuration || (end dateTime minus start dateTime) / 60000
(the quotient is multiplied back by 60000 below, so the two steps are
combined into a millisecond duration here);
then the two assignments existingEvent.start.dateTime := parse(date,
time), existingEvent.end.dateTime := parse + duration. Every access to
`existingEvent.start` / `existingEvent.end` goes through the response
object, where both properties are undefined, so the first such access
throws. The event under `data` is never touched. -/
def mergeStep (env : Env) (resp : GetResponse) (args : Args) :
    Except JsError GetResponse := do
  let date ←
    match args.newDate with
    | some d => pure d
    | none => do
      let st ← jsRequire resp.start
      let dt ← jsRequire st.dateTime
      pure (isoDatePart dt)
  let time ←
    match args.newTime with
    | some t => pure t
    | none => do
      let st ← jsRequire resp.start
      let dt ← jsRequire st.dateTime
      pure (isoTimePart dt)
  let durationMs ←
    match args.newDuration with
    | some d => pure ((d : Int) * 60000)
    | none => do
      let en ← jsRequire resp.eend
      let endDt ← jsRequire en.dateTime
      let st ← jsRequire resp.start
      let stDt ← jsRequire st.dateTime
      pure (endDt - stDt)
  let newStartMs := jsDateParseMs env.localOffsetMin ⟨date, time⟩
  let st ← jsRequire resp.start
  let resp1 := { resp with start := some { st with dateTime := some newStartMs } }
  let en ← jsRequire resp1.eend
  pure { resp1 with
           eend := some { en with dateTime := some (newStartMs + durationMs) } }

/-- The update-event handler, src/index.js lines 265-313: validation of
eventId plus at least one change field, events.get, the merge block
when newDate or newTime is present (a thrown TypeError lands in the
catch), then events.update with `existingEvent.data` as the resource
body. -/
def updateEvent (env : Env) (p : Provider) (args : Args) :
    UpdateOutcome × List PCall :=
  match args.eventId with
  | none => (.missingFields, [])
  | some eventId =>
    if args.newDate.isNone && args.newTime.isNone && args.newDuration.isNone
    then (.missingFields, [])
    else
      let cid := env.calendarId
      match p.getEvent cid eventId with
      | .error _ => (.failure, [.get cid eventId])
      | .ok evData =>
        let resp : GetResponse := { data := evData }
        let merged : Except JsError GetResponse :=
          if args.newDate.isSome || args.newTime.isSome then
            mergeStep env resp args
          else .ok resp
        match merged with
        | .error _ => (.failure, [.get cid eventId])
        | .ok resp2 =>
          match p.updateEvent cid eventId resp2.data with
          | .error _ =>
            (.failure, [.get cid eventId, .update cid eventId resp2.data])
          | .ok updData =>
            (.updated updData.id args.newDate args.newTime,
             [.get cid eventId, .update cid eventId resp2.data])

/-- The cancel-event handler, src/index.js lines 316-343. -/
def cancelEvent (env : Env) (p : Provider) (args : Args) :
    CancelOutcome × List PCall :=
  match args.eventId with
  | none => (.missingFields, [])
  | some eventId =>
    match p.deleteEvent env.calendarId eventId with
    | .error _ => (.failure, [.delete env.calendarId eventId])
    | .ok _ => (.cancelled, [.delete env.calendarId eventId])

/-- The four POST operation endpoints. -/
inductive Endpoint
  | checkAvailability
  | createEvent
  | updateEvent
  | cancelEvent
deriving DecidableEq, Repr

/-- A handler result routed through express: `res.json` leaves the
HTTP status at 200; the single result value of the body. -/
inductive ApiResult
  | initializing
  | check (o : CheckOutcome)
  | createE (o : CreateOutcome)
  | updateE (o : UpdateOutcome)
  | cancelE (o : CancelOutcome)
deriving DecidableEq, Repr

/-- An HTTP response: status code plus the result payload. -/
structure HttpResponse where
  status : Nat
  result : ApiResult
deriving DecidableEq, Repr

/-- Routing of a POST to an operation endpoint, src/index.js: the
requireCalendar middleware (lines 101-108) answers with the fixed
"still initializing" result via res.json (status 200) whenever the
global calendar handle is null, and otherwise the endpoint handler
runs with `const { args = {} } = req.body`. -/
def handlePost (env : Env) (cal : Option Provider) (ep : Endpoint)
    (body : ReqBody) : HttpResponse × List PCall :=
  match cal with
  | none => (⟨200, .initializing⟩, [])
  | some p =>
    let args := body.args.getD {}
    match ep with
    | .checkAvailability =>
      let r := checkAvailability env p args
      (⟨200, .check r.1⟩, r.2)
    | .createEvent =>
      let r := createEvent env p args
      (⟨200, .createE r.1⟩, r.2)
    | .updateEvent =>
      let r := updateEvent env p args
      (⟨200, .updateE r.1⟩, r.2)
    | .cancelEvent =>
      let r := cancelEvent env p args
      (⟨200, .cancelE r.1⟩, r.2)

/-!
Fixtures: a server environment and concrete providers used by witnesses
and closed theorems. `env0` runs the process in UTC (local offset 0)
with TIMEZONE and GOOGLE_CALENDAR_ID unset. Day 19875 is 2024-06-01;
minute 540 is 09:00 and minute 600 is 10:00.
-/

/-- Process in UTC, no TIMEZONE, no GOOGLE_CALENDAR_ID. -/
def env0 : Env := ⟨0, none, none⟩

/-- A concrete stored event: id abc123, 1970-01-01 00:00 to 01:00 UTC
(start instant 0 ms, end instant 3600000 ms). -/
def ev0 : GEvent :=
  ⟨"abc123", some "Dentist", ⟨some 0, none⟩, ⟨some 3600000, none⟩⟩

/-- A provider whose calendar window is empty and whose mutations
succeed; get returns `ev0` and update echoes the body it was given. -/
def pEmpty : Provider where
  listEvents _ := .ok ⟨some []⟩
  insertEvent _ := .ok ⟨"evt1", some "link1"⟩
  getEvent _ _ := .ok ev0
  updateEvent _ _ body := .ok body
  deleteEvent _ _ := .ok ()

/-- A provider whose window already contains `ev0`. -/
def pBusy : Provider :=
  { pEmpty with listEvents := fun _ => .ok ⟨some [ev0]⟩ }

/-- A provider every one of whose operations rejects, each with a
distinct detail message. -/
def pFail : Provider where
  listEvents _ := .error (.providerError "list boom")
  insertEvent _ := .error (.providerError "insert boom")
  getEvent _ _ := .error (.providerError "get boom")
  updateEvent _ _ _ := .error (.providerError "update boom")
  deleteEvent _ _ := .error (.providerError "delete boom")

/-- A provider whose listing succeeds (empty window) but whose insert
rejects. -/
def pInsertFail : Provider :=
  { pEmpty with insertEvent := fun _ => .error (.providerError "insert boom") }

/-- A provider whose get succeeds but whose update rejects. -/
def pUpdateFail : Provider :=
  { pEmpty with updateEvent := fun _ _ _ => .error (.providerError "update boom") }

/-- The events.list query issued by the create handler for date `d`,
start minute `st` and duration `dur` minutes. -/
def createWindowQuery (env : Env) (d st dur : Nat) : ListParams :=
  ⟨env.calendarId, jsDateParseMs env.localOffsetMin ⟨d, st⟩,
   jsDateParseMs env.localOffsetMin ⟨d, st⟩ + (dur : Int) * 60000,
   true, false, none⟩

/-- The events.list query issued by the check-availability handler. -/
def checkWindowQuery (env : Env) (d st en : Nat) : ListParams :=
  ⟨env.calendarId, jsDateParseMs env.localOffsetMin ⟨d, st⟩,
   jsDateParseMs env.localOffsetMin ⟨d, en⟩, true, true, some env.timeZone⟩

/-- Modelled from the spec (section 4.2 and claim C4): the instant
obtained by interpreting a wall-clock date+time in the configured
timezone, whose UTC offset in minutes east at that date is `tzOff`
(America/Chicago on 2024-06-01 observes daylight time, offset -300).
This is the refinement target the window bounds are compared with; the
embedded code uses `jsDateParseMs` with the process-local offset
instead. -/
def specZoneInstant (tzOff : Int) (w : WallTime) : Int :=
  wallMs w - tzOff * 60000

/-- The check-availability request of the spec example: 2024-06-01
from 09:00 to 10:00. -/
def argsExample : Args :=
  { date := some 19875, startTime := some 540, endTime := some 600 }

/-- An update request changing only the time of day, to 10:00. -/
def argsNewTimeOnly : Args :=
  { eventId := some "abc123", newTime := some 600 }

/-- An update request changing only the duration, to 30 minutes. -/
def argsNewDurationOnly : Args :=
  { eventId := some "abc123", newDuration := some 30 }

/-- Every provider call recorded by the check-availability handler is
an events.list call, whatever the input and the provider. -/
theorem checkAvailability_all_list (env : Env) (p : Provider) (args : Args) :
    ((checkAvailability env p args).2).all PCall.isList = true := by
  unfold checkAvailability
  rcases args.date with _ | d <;> rcases args.startTime with _ | st <;>
    rcases args.endTime with _ | en <;> try rfl
  dsimp only
  rcases p.listEvents _ with e | r
  · rfl
  · dsimp only
    split <;> rfl

/-- Claim C9: while the calendar handle is not initialized, every POST
to an operation endpoint is answered by the requireCalendar middleware
with the fixed "still initializing" result at HTTP status 200, hence
never a 5xx, and no provider call is made. -/
theorem requireCalendar_initializing (env : Env) (ep : Endpoint)
    (body : ReqBody) :
    handlePost env none ep body = (⟨200, .initializing⟩, []) ∧
    (handlePost env none ep body).1.status < 500 := by
  exact ⟨rfl, by norm_num [handlePost]⟩

/-- Claim C10: a POST to check-availability only ever issues events.list
calls to the provider: every recorded call is a list call, for every
environment, calendar handle state and request body, so no insert,
update or delete reaches the calendar. -/
theorem checkAvailability_read_only (env : Env) (cal : Option Provider)
    (body : ReqBody) :
    ((handlePost env cal .checkAvailability body).2).all PCall.isList = true := by
  cases cal with
  | none => rfl
  | some p => exact checkAvailability_all_list env p _

/-- Claim C2: each operation handler that is missing a required field
(date/startTime/endTime for check-availability; title/date/startTime
for create-event; eventId plus at least one of newDate/newTime/
newDuration for update-event; eventId for cancel-event) issues no
provider call and returns its fixed guidance outcome. -/
theorem missing_fields_no_provider_call (env : Env) (p : Provider)
    (args : Args) :
    ((args.date = none ∨ args.startTime = none ∨ args.endTime = none) →
      checkAvailability env p args = (.missingFields, [])) ∧
    ((args.title = none ∨ args.date = none ∨ args.startTime = none) →
      createEvent env p args = (.missingFields, [])) ∧
    ((args.eventId = none ∨
        (args.newDate = none ∧ args.newTime = none ∧ args.newDuration = none)) →
      updateEvent env p args = (.missingFields, [])) ∧
    (args.eventId = none → cancelEvent env p args = (.missingFields, [])) := by
  refine ⟨?_, ?_, ?_, ?_⟩
  · intro h
    unfold checkAvailability
    rcases hd : args.date with _ | d <;> rcases hs : args.startTime with _ | st <;>
      rcases he : args.endTime with _ | en <;> simp_all
  · intro h
    unfold createEvent
    rcases ht : args.title with _ | t <;> rcases hd : args.date with _ | d <;>
      rcases hs : args.startTime with _ | st <;> simp_all
  · intro h
    unfold updateEvent
    rcases he : args.eventId with _ | eid
    · rfl
    · rcases h with h | ⟨h1, h2, h3⟩
      · simp_all
      · simp_all
  · intro h
    unfold cancelEvent
    rw [h]

/-- Claim C3: on a valid check-availability request whose provider
listing succeeds, the outcome is the free message exactly when the
listed window (items defaulted to the empty list) is empty, and
otherwise it is the busy message carrying the count of listed events
and, per event, its start and its summary defaulted to Busy. -/
theorem checkAvailability_free_iff_empty (env : Env) (p : Provider)
    (args : Args) (d st en : Nat)
    (hd : args.date = some d) (hs : args.startTime = some st)
    (he : args.endTime = some en) (respData : ListResponseData)
    (hq : p.listEvents (checkWindowQuery env d st en) = .ok respData) :
    ((checkAvailability env p args).1 = .free d st en ↔
      respData.items.getD [] = []) ∧
    (respData.items.getD [] ≠ [] →
      (checkAvailability env p args).1 =
        .busy d (respData.items.getD []).length
          ((respData.items.getD []).map fun ev =>
            (ev.start, ev.summary.getD "Busy"))) := by
  unfold checkAvailability
  rw [hd, hs, he]
  dsimp only
  rw [show (⟨env.calendarId, jsDateParseMs env.localOffsetMin ⟨d, st⟩,
        jsDateParseMs env.localOffsetMin ⟨d, en⟩, true, true,
        some env.timeZone⟩ : ListParams) = checkWindowQuery env d st en from rfl,
      hq]
  dsimp only
  by_cases hnil : respData.items.getD [] = []
  · rw [hnil]
    simp
  · have hlen : ¬ (respData.items.getD []).length = 0 := by
      simpa [List.length_eq_zero] using hnil
    rw [if_neg hlen]
    simp [hnil]

/-- Closed witness for claim C3: with the empty provider the 2024-06-01
09:00-10:00 check reports the calendar free. -/
theorem checkAvailability_free_iff_empty_witness :
    (checkAvailability env0 pEmpty
      { date := some 19875, startTime := some 540, endTime := some 600 }).1 =
      .free 19875 540 600 :=
  ((checkAvailability_free_iff_empty env0 pEmpty
      { date := some 19875, startTime := some 540, endTime := some 600 }
      19875 540 600 rfl rfl rfl ⟨some []⟩ rfl).1).mpr rfl

/-- Closed witness for claim C2: with all fields absent, each of the
four handlers returns its guidance outcome and an empty call trace. -/
theorem missing_fields_no_provider_call_witness :
    checkAvailability env0 pEmpty {} = (.missingFields, []) ∧
    createEvent env0 pEmpty {} = (.missingFields, []) ∧
    updateEvent env0 pEmpty {} = (.missingFields, []) ∧
    cancelEvent env0 pEmpty {} = (.missingFields, []) := by
  obtain ⟨h1, h2, h3, h4⟩ := missing_fields_no_provider_call env0 pEmpty {}
  exact ⟨h1 (Or.inl rfl), h2 (Or.inl rfl), h3 (Or.inl rfl), h4 rfl⟩

/-- Claim C1: on a create-event request with title, date and startTime
present, the handler first issues the events.list call over
[start, start + duration); whenever that listing succeeds with a
non-empty item list the outcome is the conflict message and no insert
call appears in the trace; and an insert call occurs only when the
listing succeeded with an empty (or absent) item list. -/
theorem createEvent_conflict_guard (env : Env) (p : Provider) (args : Args)
    (t : String) (d st : Nat)
    (ht : args.title = some t) (hd : args.date = some d)
    (hs : args.startTime = some st) :
    ((createEvent env p args).2.head? =
      some (.list (createWindowQuery env d st (args.duration.getD 60)))) ∧
    (∀ respData,
      p.listEvents (createWindowQuery env d st (args.duration.getD 60)) =
        .ok respData →
      respData.items.getD [] ≠ [] →
      (createEvent env p args).1 = .conflict ∧
      ((createEvent env p args).2.all fun c => !c.isInsert) = true) ∧
    ((∃ c ∈ (createEvent env p args).2, c.isInsert = true) →
      ∃ respData,
        p.listEvents (createWindowQuery env d st (args.duration.getD 60)) =
          .ok respData ∧
        respData.items.getD [] = []) := by
  unfold createEvent
  rw [ht, hd, hs]
  dsimp only
  rw [show (⟨env.calendarId, jsDateParseMs env.localOffsetMin ⟨d, st⟩,
      jsDateParseMs env.localOffsetMin ⟨d, st⟩ +
        ((args.duration.getD 60 : Nat) : Int) * 60000,
      true, false, none⟩ : ListParams) =
      createWindowQuery env d st (args.duration.getD 60) from rfl]
  rcases hq : p.listEvents (createWindowQuery env d st (args.duration.getD 60))
    with e | r
  · refine ⟨rfl, ?_, ?_⟩ <;> simp [PCall.isInsert]
  · dsimp only
    rcases hitems : r.items with _ | l
    · dsimp only
      rcases hins : p.insertEvent _ with e2 | r2 <;>
        refine ⟨rfl, ?_, ?_⟩ <;> simp [hitems]
    · dsimp only
      by_cases hl : 0 < l.length
      · rw [if_pos (by simpa using hl)]
        refine ⟨rfl, ?_, ?_⟩
        · intro respData hok _
          exact ⟨rfl, by simp [PCall.isInsert]⟩
        · simp [PCall.isInsert]
      · have hnil : l = [] := by
          simpa [List.length_eq_zero] using hl
        rw [if_neg (by simpa using hl)]
        rcases hins : p.insertEvent _ with e2 | r2 <;>
          refine ⟨rfl, ?_, ?_⟩ <;> simp [hitems, hnil]

/-- Closed witness for claim C1: with the busy provider, the concrete
2024-06-01 09:00 create request is refused with the conflict outcome
and no insert call. -/
theorem createEvent_conflict_guard_witness :
    (createEvent env0 pBusy
      { title := some "Dentist", date := some 19875, startTime := some 540 }).1 =
      .conflict :=
  ((createEvent_conflict_guard env0 pBusy
      { title := some "Dentist", date := some 19875, startTime := some 540 }
      "Dentist" 19875 540 rfl rfl rfl).2.1 ⟨some [ev0]⟩ rfl (by simp)).1

/-- Claim C7: every valid create-event request that omits duration
defaults it to 60 minutes: for any title, date, start time, description
and attendee, any insert call the handler issues carries a body whose
start is the parsed date+startTime instant and whose end instant is
that start plus 60 * 60000 ms. In particular (second conjunct), against
an empty window with a successful insert returning a non-empty id, the
request is inserted as [startTime, startTime + 60 minutes) — the spec
example 09:00, minute 540, ends at 10:00, minute 600 — and the response
carries that non-empty eventId. -/
theorem createEvent_default_duration (env : Env) (p : Provider) (args : Args)
    (t : String) (d st : Nat)
    (ht : args.title = some t) (hd : args.date = some d)
    (hs : args.startTime = some st) (hdur : args.duration = none) :
    (∀ c ∈ (createEvent env p args).2, ∀ ip : InsertParams,
      c = PCall.insert ip →
      ip.resource.start.dateTime = jsDateParseMs env.localOffsetMin ⟨d, st⟩ ∧
      ip.resource.eend.dateTime = ip.resource.start.dateTime + 60 * 60000) ∧
    (∀ rid rlink, (∀ q, p.listEvents q = .ok ⟨some []⟩) →
      (∀ q, p.insertEvent q = .ok ⟨rid, rlink⟩) → rid ≠ "" →
      (createEvent env p args).1 =
        .created t d st 60 rid rlink args.attendeeEmail ∧
      ∃ ip : InsertParams,
        (createEvent env p args).2 =
          [.list (createWindowQuery env d st 60), .insert ip] ∧
        ip.resource.start.dateTime = jsDateParseMs env.localOffsetMin ⟨d, st⟩ ∧
        ip.resource.eend.dateTime =
          jsDateParseMs env.localOffsetMin ⟨d, st + 60⟩ ∧
        rid ≠ "") := by
  have harith : jsDateParseMs env.localOffsetMin ⟨d, st⟩ +
      ((60 : Nat) : Int) * 60000 = jsDateParseMs env.localOffsetMin ⟨d, st + 60⟩ := by
    simp only [jsDateParseMs, wallMs]
    push_cast
    ring
  refine ⟨?_, ?_⟩
  · unfold createEvent
    rw [ht, hd, hs, hdur]
    dsimp only
    rcases p.listEvents _ with e | r
    · intro c hc ip heq
      simp only [List.mem_singleton] at hc
      subst hc
      simp at heq
    · dsimp only
      have hmem : ∀ Q ins, ∀ c ∈ [PCall.list Q, PCall.insert ins],
          ∀ ip : InsertParams, c = PCall.insert ip →
          ip = ins := by
        intro Q ins c hc ip heq
        simp only [List.mem_cons, List.not_mem_nil, or_false] at hc
        rcases hc with rfl | rfl
        · simp at heq
        · injection heq.symm
      rcases hit : r.items with _ | l
      · dsimp only
        rcases p.insertEvent _ with e2 | r2 <;>
        · intro c hc ip heq
          have := hmem _ _ c hc ip heq
          subst this
          exact ⟨rfl, by norm_num⟩
      · by_cases hl : 0 < l.length
        · rw [if_pos (by simpa using hl)]
          intro c hc ip heq
          simp only [List.mem_singleton] at hc
          subst hc
          simp at heq
        · rw [if_neg (by simpa using hl)]
          rcases p.insertEvent _ with e2 | r2 <;>
          · intro c hc ip heq
            have := hmem _ _ c hc ip heq
            subst this
            exact ⟨rfl, by norm_num⟩
  · intro rid rlink hlist hins hrid
    unfold createEvent
    rw [ht, hd, hs, hdur]
    dsimp only
    rw [hlist _]
    dsimp only
    rw [if_neg (by simp)]
    rw [hins _]
    exact ⟨rfl, _, rfl, rfl, harith, hrid⟩

/-- Closed witness for claim C7: the concrete spec example (Dentist on
2024-06-01 at 09:00, duration omitted) against the empty provider is
inserted as 09:00-10:00 and answered with the non-empty eventId evt1. -/
theorem createEvent_default_duration_witness :
    (createEvent env0 pEmpty
      { title := some "Dentist", date := some 19875, startTime := some 540 }).1 =
      .created "Dentist" 19875 540 60 "evt1" (some "link1") none ∧
    ∃ ip : InsertParams,
      (createEvent env0 pEmpty
        { title := some "Dentist", date := some 19875,
          startTime := some 540 }).2 =
        [.list (createWindowQuery env0 19875 540 60), .insert ip] ∧
      ip.resource.start.dateTime = jsDateParseMs env0.localOffsetMin ⟨19875, 540⟩ ∧
      ip.resource.eend.dateTime =
        jsDateParseMs env0.localOffsetMin ⟨19875, 540 + 60⟩ ∧
      "evt1" ≠ "" :=
  (createEvent_default_duration env0 pEmpty
      { title := some "Dentist", date := some 19875, startTime := some 540 }
      "Dentist" 19875 540 rfl rfl rfl rfl).2
    "evt1" (some "link1") (fun _ => rfl) (fun _ => rfl) (by decide)

/-- Claim C8: when the provider rejects, each handler lands in its catch
block and returns its fixed apology outcome, which carries no payload,
so the error detail (the arbitrary messages e1..e5 below) cannot reach
the result: the conclusion is the same constant outcome whatever the
rejection values are. Covered failure sites: the listing of
check-availability, the conflict listing of create-event, the insert of
create-event (listing succeeded on an empty window), the get of
update-event, the update call of update-event (get succeeded,
newDuration-only change), and the delete of cancel-event. -/
theorem provider_failure_generic_apology (env : Env)
    (p pIns pUpd : Provider) (e1 e2 e3 e4 e5 : JsError) (args : Args)
    (d st en dur2 : Nat) (t eid : String)
    (hd : args.date = some d) (hs : args.startTime = some st)
    (he : args.endTime = some en) (ht : args.title = some t)
    (hid : args.eventId = some eid) (hnd : args.newDate = none)
    (hnt : args.newTime = none) (hndur : args.newDuration = some dur2)
    (h1 : ∀ q, p.listEvents q = .error e1)
    (h2 : ∀ q, pIns.listEvents q = .ok ⟨some []⟩)
    (h3 : ∀ q, pIns.insertEvent q = .error e2)
    (h4 : ∀ a b, p.getEvent a b = .error e3)
    (h5 : ∀ a b, pUpd.getEvent a b = .ok ev0)
    (h6 : ∀ a b body, pUpd.updateEvent a b body = .error e4)
    (h7 : ∀ a b, p.deleteEvent a b = .error e5) :
    (checkAvailability env p args).1 = .failure ∧
    (createEvent env p args).1 = .failure ∧
    (createEvent env pIns args).1 = .failure ∧
    (updateEvent env p args).1 = .failure ∧
    (updateEvent env pUpd args).1 = .failure ∧
    (cancelEvent env p args).1 = .failure := by
  refine ⟨?_, ?_, ?_, ?_, ?_, ?_⟩
  · unfold checkAvailability
    rw [hd, hs, he]
    dsimp only
    rw [h1 _]
  · unfold createEvent
    rw [ht, hd, hs]
    dsimp only
    rw [h1 _]
  · unfold createEvent
    rw [ht, hd, hs]
    dsimp only
    rw [h2 _]
    dsimp only
    rw [if_neg (by simp)]
    rw [h3 _]
  · unfold updateEvent
    rw [hid]
    dsimp only
    rw [if_neg (by simp [hndur])]
    rw [h4 _ _]
  · unfold updateEvent
    rw [hid]
    dsimp only
    rw [if_neg (by simp [hndur])]
    rw [h5 _ _]
    dsimp only
    rw [if_neg (by simp [hnd, hnt])]
    dsimp only
    rw [h6 _ _ _]
  · unfold cancelEvent
    rw [hid]
    dsimp only
    rw [h7 _ _]

/-- Closed witness for claim C8: with the concretely failing providers
every handler returns its apology outcome. -/
theorem provider_failure_generic_apology_witness :
    (checkAvailability env0 pFail
      { date := some 19875, startTime := some 540, endTime := some 600,
        title := some "Dentist", eventId := some "abc123",
        newDuration := some 30 }).1 = .failure ∧
    (createEvent env0 pFail
      { date := some 19875, startTime := some 540, endTime := some 600,
        title := some "Dentist", eventId := some "abc123",
        newDuration := some 30 }).1 = .failure ∧
    (createEvent env0 pInsertFail
      { date := some 19875, startTime := some 540, endTime := some 600,
        title := some "Dentist", eventId := some "abc123",
        newDuration := some 30 }).1 = .failure ∧
    (updateEvent env0 pFail
      { date := some 19875, startTime := some 540, endTime := some 600,
        title := some "Dentist", eventId := some "abc123",
        newDuration := some 30 }).1 = .failure ∧
    (updateEvent env0 pUpdateFail
      { date := some 19875, startTime := some 540, endTime := some 600,
        title := some "Dentist", eventId := some "abc123",
        newDuration := some 30 }).1 = .failure ∧
    (cancelEvent env0 pFail
      { date := some 19875, startTime := some 540, endTime := some 600,
        title := some "Dentist", eventId := some "abc123",
        newDuration := some 30 }).1 = .failure :=
  provider_failure_generic_apology env0 pFail pInsertFail pUpdateFail
    (.providerError "list boom") (.providerError "insert boom")
    (.providerError "get boom") (.providerError "update boom")
    (.providerError "delete boom")
    { date := some 19875, startTime := some 540, endTime := some 600,
      title := some "Dentist", eventId := some "abc123",
      newDuration := some 30 }
    19875 540 600 30 "Dentist" "abc123"
    rfl rfl rfl rfl rfl rfl rfl rfl
    (fun _ => rfl) (fun _ => rfl) (fun _ => rfl) (fun _ _ => rfl)
    (fun _ _ => rfl) (fun _ _ _ => rfl) (fun _ _ => rfl)

/-- Claim C4, evaluated at its failing input (the code is the slip: the
comment above src/index.js line 128 announces parsing in the user
timezone and binds the configured zone, but `new Date` parses the
offset-free string in the process-local zone). With the process in UTC
and TIMEZONE unset (configured zone America/Chicago, offset -300 on
2024-06-01), the 09:00-10:00 check sends timeMin equal to the
wall-clock value read in UTC, which differs from the configured-zone
instant required by the claim, and moving the process to the Chicago
offset changes the issued bounds, so they are not independent of the
process-local zone. -/
theorem checkWindow_uses_process_local_zone :
    (checkAvailability env0 pEmpty argsExample).2 =
      [.list ⟨"colinyuan3333@gmail.com", wallMs ⟨19875, 540⟩,
        wallMs ⟨19875, 600⟩, true, true, some "America/Chicago"⟩] ∧
    wallMs ⟨19875, 540⟩ ≠ specZoneInstant (-300) ⟨19875, 540⟩ ∧
    (checkAvailability env0 pEmpty argsExample).2 ≠
      (checkAvailability { env0 with localOffsetMin := -300 } pEmpty
        argsExample).2 := by
  exact ⟨by decide, by decide, by decide⟩

/-- Claim C5, evaluated at its failing input (the code is the slip: the
merge block reads `existingEvent.start` on the get response object,
whose event payload sits under `data` — as line 300 itself uses — so
the access sees undefined and throws). An update request carrying only
newTime, against a provider whose get succeeds, lands in the catch
block: the outcome is the generic failure and the trace holds only the
get call — no update call with preserved date and duration is ever
issued. -/
theorem updateEvent_newTime_only_throws :
    updateEvent env0 pEmpty argsNewTimeOnly =
      (.failure, [.get "colinyuan3333@gmail.com" "abc123"]) ∧
    ((updateEvent env0 pEmpty argsNewTimeOnly).2.all fun c => !c.isUpdate)
      = true := by
  exact ⟨by decide, by decide⟩

/-- Claim C6, evaluated at its failing input (the code is the slip: the
recompute block is guarded by `if (newDate || newTime)`, so a
newDuration-only request skips it although the validation accepts
duration as a change field). With only newDuration = 30 against the
stored event `ev0` (start 0 ms, end 3600000 ms), the handler writes
back `ev0` unchanged: the end instant stays 3600000 ms instead of the
claimed start + 30 * 60000 = 1800000 ms. -/
theorem updateEvent_newDuration_only_noop :
    updateEvent env0 pEmpty argsNewDurationOnly =
      (.updated "abc123" none none,
       [.get "colinyuan3333@gmail.com" "abc123",
        .update "colinyuan3333@gmail.com" "abc123" ev0]) ∧
    ev0.start.dateTime = some 0 ∧
    ev0.eend.dateTime = some 3600000 ∧
    (3600000 : Int) ≠ 0 + 30 * 60000 := by
  exact ⟨by decide, rfl, rfl, by decide⟩

end OneNum
